import Mathlib

/-!
Verification of the CartPilot backend core against its specification.

The Python source is shallowly embedded: Pydantic models become structures,
pure functions become Lean functions, and the stateful operations
(price monitor, notification manager, wishlist creation, TTL cache) become
explicit state-passing functions.  Machine integers are modelled as `Nat`
(all the quantities involved - prices, timestamps, counters - are
non-negative in the source), timestamps as seconds since an epoch, and
Python float arithmetic in the text parser as exact rational arithmetic.
Python truthiness of optional strings/ints (None, "" and 0 are falsy) is
modelled explicitly where the source relies on it.
-/

namespace CartPilot

/-- Python truthiness of an optional string: None and "" are falsy. -/
def optStrTruthy : Option String → Bool
  | none => false
  | some s => !(s == "")

/-- Python truthiness of an optional int: None and 0 are falsy. -/
def optNatTruthy : Option Nat → Bool
  | none => false
  | some n => !(n == 0)

/-! ## Data model (src/app/models/request.py) -/

/-- `IntentType` enum: the five conversational modes. -/
inductive IntentType
  | GIFT
  | VALUE
  | BUNDLE
  | REVIEW
  | TREND
deriving DecidableEq, Repr

/-- `BudgetRange`: optional min/max/total prices (all `ge=0`) and a flexibility flag. -/
structure BudgetRange where
  min_price : Option Nat
  max_price : Option Nat
  total_budget : Option Nat
  is_flexible : Bool
deriving DecidableEq, Repr

/-- `RecipientInfo`: optional relation, gender, age group and occasion. -/
structure RecipientInfo where
  relation : Option String
  gender : Option String
  age_group : Option String
  occasion : Option String
deriving DecidableEq, Repr

/-- `Constraints`: brand blacklist, delivery deadline, three exclusion flags. -/
structure Constraints where
  exclude_brands : List String
  delivery_deadline : Option String
  exclude_used : Bool
  exclude_rental : Bool
  exclude_overseas : Bool
deriving DecidableEq, Repr

/-- `Requirements`: extracted requirements; `clarify_count` is declared with
`Field(default=0, ge=0, le=2)` in the source. -/
structure Requirements where
  budget : Option BudgetRange
  items : List String
  recipient : Option RecipientInfo
  constraints : Constraints
  missing_fields : List String
  clarify_count : Nat
deriving DecidableEq, Repr

/-- The Pydantic validation bound on `clarify_count` (`ge=0, le=2`). -/
def Requirements.clarifyCountValid (r : Requirements) : Prop :=
  r.clarify_count ≤ 2

/-- The default `Constraints` built by the analyzer: the three exclusion
flags set to `True` (src/app/agents/analyzer.py lines 176-180). -/
def defaultConstraints : Constraints :=
  { exclude_brands := []
    delivery_deadline := none
    exclude_used := true
    exclude_rental := true
    exclude_overseas := true }

/-! ## Missing-field rules (src/app/agents/analyzer.py `_get_missing_fields`) -/

/-- `not requirements.recipient or not requirements.recipient.relation`:
a Pydantic model instance is always truthy, so the first test is a `None`
check; the relation itself is an optional string tested by truthiness. -/
def giftRecipientMissing : Option RecipientInfo → Bool
  | none => true
  | some ri => !(optStrTruthy ri.relation)

/-- `not requirements.budget or not requirements.budget.total_budget`
(BUNDLE branch): budget `None`, or `total_budget` falsy (None or 0). -/
def bundleBudgetMissing : Option BudgetRange → Bool
  | none => true
  | some b => !(optNatTruthy b.total_budget)

/-- `_get_missing_fields` (analyzer.py lines 242-269): per-intent required
fields, appended in source order. -/
def _get_missing_fields (requirements : Requirements) (intent_str : String) : List String :=
  if intent_str == "GIFT" then
    (if giftRecipientMissing requirements.recipient then ["recipient"] else []) ++
    (if requirements.budget.isNone then ["budget"] else [])
  else if intent_str == "VALUE" then
    (if requirements.items.isEmpty then ["items"] else [])
  else if intent_str == "BUNDLE" then
    (if requirements.items.isEmpty || requirements.items.length < 2 then ["items"] else []) ++
    (if bundleBudgetMissing requirements.budget then ["budget"] else [])
  else if intent_str == "REVIEW" then
    (if requirements.items.isEmpty then ["items"] else [])
  else
    []

/-- `_get_clarification_question` (analyzer.py lines 272-283). -/
def _get_clarification_question (field : String) (intent_str : String) : String × String :=
  if field == "recipient" then
    ("recipient", "선물 받으실 분이 누구인가요? (예: 친구, 동료, 부모님)")
  else if field == "budget" then
    ("budget", "예산이 어느 정도인가요? (예: 5만원, 10만원)")
  else if field == "items" then
    ("items",
      if intent_str == "BUNDLE" then "어떤 품목들을 함께 구매하실 건가요?"
      else "어떤 종류의 제품을 찾으시나요?")
  else
    ("unknown", "추가 정보가 필요합니다.")

/-! ## Analyzer post-processing (src/app/agents/analyzer.py `analyze_request`)

The LLM call and JSON/code-fence parsing are external I/O; the embedding
takes the parsed JSON fields as input and models the deterministic
post-processing of lines 139-217 of the source. -/

/-- The parsed JSON fields of the analyzer LLM reply. -/
structure LLMAnalysis where
  intent_str : String
  confidence : ℚ
  budget : Option BudgetRange
  items : List String
  recipient : Option RecipientInfo
  search_keywords : List String

/-- `IntentType(intent_str)` with its `ValueError` branch. -/
def parseIntentType (s : String) : Option IntentType :=
  if s == "GIFT" then some .GIFT
  else if s == "VALUE" then some .VALUE
  else if s == "BUNDLE" then some .BUNDLE
  else if s == "REVIEW" then some .REVIEW
  else if s == "TREND" then some .TREND
  else none

/-- The state fields returned by `analyze_request` on the success path. -/
structure AnalyzerOutput where
  intent : IntentType
  intent_confidence : ℚ
  requirements : Requirements
  search_keywords : List String
  clarification_needed : Bool
  clarification_question : Option String
  clarification_field : Option String

/-- `analyze_request` success path (analyzer.py lines 139-217): intent
fallback to VALUE at confidence 0.5, fresh `Requirements` (whose
`clarify_count` takes the Pydantic default 0), missing-field computation,
and the clarification decision
`len(missing_fields) > 0 and requirements.clarify_count < 2`. -/
def analyze_request (a : LLMAnalysis) : AnalyzerOutput :=
  let parsed := parseIntentType a.intent_str
  let intent := parsed.getD IntentType.VALUE
  let confidence := if parsed.isNone then (1 / 2 : ℚ) else a.confidence
  let requirements0 : Requirements :=
    { budget := a.budget
      items := a.items
      recipient := a.recipient
      constraints := defaultConstraints
      missing_fields := []
      clarify_count := 0 }
  let missing := _get_missing_fields requirements0 a.intent_str
  let requirements := { requirements0 with missing_fields := missing }
  let clarification_needed :=
    decide (missing.length > 0) && decide (requirements.clarify_count < 2)
  let fq :=
    if clarification_needed && !missing.isEmpty then
      some (_get_clarification_question (missing.headD "") a.intent_str)
    else none
  { intent := intent
    intent_confidence := confidence
    requirements := requirements
    search_keywords := a.search_keywords
    clarification_needed := clarification_needed
    clarification_question := fq.map Prod.snd
    clarification_field := fq.map Prod.fst }

/-! ## Orchestrator graph (src/app/agents/orchestrator.py)

`langgraph.StateGraph` is embedded as a record of nodes, plain edges,
conditional edges (source node plus label-to-target mapping) and an entry
point; `create_orchestrator_graph` and `build_orchestrator` replay the
source's construction calls in order. -/

/-- The `langgraph` terminal sentinel `END`. -/
def GRAPH_END : String := "__end__"

/-- Embedded `StateGraph` builder state. -/
structure StateGraph where
  nodes : List String
  edges : List (String × String)
  branches : List (String × List (String × String))
  entry : Option String
deriving DecidableEq, Repr

/-- `graph.add_node(name, fn)`: records the node name. -/
def add_node (g : StateGraph) (name : String) : StateGraph :=
  { g with nodes := g.nodes ++ [name] }

/-- `graph.add_edge(a, b)`. -/
def add_edge (g : StateGraph) (a b : String) : StateGraph :=
  { g with edges := g.edges ++ [(a, b)] }

/-- `graph.set_entry_point(n)`. -/
def set_entry_point (g : StateGraph) (n : String) : StateGraph :=
  { g with entry := some n }

/-- `graph.add_conditional_edges(src, fn, mapping)`. -/
def add_conditional_edges (g : StateGraph) (src : String)
    (mapping : List (String × String)) : StateGraph :=
  { g with branches := g.branches ++ [(src, mapping)] }

/-- `should_clarify` (orchestrator.py lines 16-20): reads
`state.get("clarification_needed", False)`. -/
def should_clarify (clarification_needed : Option Bool) : String :=
  if clarification_needed.getD false then "clarify" else "route_to_agent"

/-- `route_by_intent` (orchestrator.py lines 23-38): reads
`state.get("intent")`; anything but the five enum values falls through to
`value_agent`. -/
def route_by_intent (intent : Option IntentType) : String :=
  match intent with
  | some .GIFT => "gift_agent"
  | some .VALUE => "value_agent"
  | some .BUNDLE => "bundle_agent"
  | some .REVIEW => "review_agent"
  | some .TREND => "trend_agent"
  | none => "value_agent"

/-- `create_orchestrator_graph` (orchestrator.py lines 57-125), replaying
the `add_node` / `set_entry_point` / `add_edge` / `add_conditional_edges`
calls in source order. -/
def create_orchestrator_graph : StateGraph :=
  let g : StateGraph := { nodes := [], edges := [], branches := [], entry := none }
  let g := add_node g "classify_intent"
  let g := add_node g "extract_requirements"
  let g := add_node g "clarify"
  let g := add_node g "gift_agent"
  let g := add_node g "value_agent"
  let g := add_node g "bundle_agent"
  let g := add_node g "review_agent"
  let g := add_node g "trend_agent"
  let g := set_entry_point g "classify_intent"
  let g := add_edge g "classify_intent" "extract_requirements"
  let g := add_conditional_edges g "extract_requirements"
    [("clarify", "clarify"), ("route_to_agent", "route_by_intent")]
  let g := add_edge g "clarify" GRAPH_END
  let g := add_conditional_edges g "route_by_intent"
    [("gift_agent", "gift_agent"), ("value_agent", "value_agent"),
     ("bundle_agent", "bundle_agent"), ("review_agent", "review_agent"),
     ("trend_agent", "trend_agent")]
  let g := add_edge g "gift_agent" GRAPH_END
  let g := add_edge g "value_agent" GRAPH_END
  let g := add_edge g "bundle_agent" GRAPH_END
  let g := add_edge g "review_agent" GRAPH_END
  let g := add_edge g "trend_agent" GRAPH_END
  g

/-- `build_orchestrator` (orchestrator.py lines 134-141): adds the
`route_by_intent` passthrough node and compiles. -/
def build_orchestrator : StateGraph :=
  add_node create_orchestrator_graph "route_by_intent"

/-! ## Wishlist data rows (src/app/models/wishlist.py) -/

/-- `WishlistItem` ORM row (the columns the verified operations touch). -/
structure WishlistItem where
  id : Nat
  user_id : Nat
  product_id : String
  product_name : String
  current_price : Nat
  target_price : Option Nat
  lowest_price_90days : Option Nat
  notification_enabled : Bool
  last_notified_at : Option Nat
deriving DecidableEq, Repr

/-- `PriceHistory` ORM row. -/
structure PriceHistoryRow where
  wishlist_item_id : Nat
  price : Nat
  recorded_at : Nat
deriving DecidableEq, Repr

/-! ## Price monitor (src/app/services/price_monitor.py)

Timestamps are seconds; `timedelta(days=90)` is `90 * 86400` seconds.
The database session is passed as the explicit list of `PriceHistory`
rows; `db.add` is an append.  The session runs with `autoflush=False`,
so the 90-day query of the source does not see the just-added pending
row; the embedding still folds it into the history before the minimum,
which is value-preserving because the new row's price is exactly the
`current_price` that `_calculate_lowest_90days` folds into the minimum
anyway. -/

/-- `timedelta(days=90)` in seconds. -/
def NINETY_DAYS : Nat := 90 * 86400

/-- The `PriceHistory.price` values of the given item recorded within the
last 90 days (the `select ... where` of `_calculate_lowest_90days`). -/
def pricesWithin90 (history : List PriceHistoryRow) (itemId now : Nat) : List Nat :=
  (history.filter
    (fun h => h.wishlist_item_id == itemId && decide (now - NINETY_DAYS ≤ h.recorded_at))).map
    (fun h => h.price)

/-- `_calculate_lowest_90days` (price_monitor.py lines 145-165):
`min(min(prices), current_price)` when the window is non-empty, else
`current_price`. -/
def _calculate_lowest_90days (history : List PriceHistoryRow) (itemId now current_price : Nat) :
    Nat :=
  match pricesWithin90 history itemId now with
  | [] => current_price
  | p :: ps => min (ps.foldl min p) current_price

/-- `_should_send_alert` (price_monitor.py lines 167-188): price at or
below the 90-day low, or a truthy `target_price` at or above the price. -/
def _should_send_alert (item : WishlistItem) (current_price lowest_90days : Nat) : Bool :=
  if current_price ≤ lowest_90days then true
  else
    match item.target_price with
    | some t => !(t == 0) && decide (current_price ≤ t)
    | none => false

/-- Result of one `_check_item_price` call: the (possibly updated) item
and history, the `updated` flag, and whether the notification dispatcher
was invoked. -/
structure CheckResult where
  item : WishlistItem
  history : List PriceHistoryRow
  updated : Bool
  alertInvoked : Bool
deriving Repr

/-- `_check_item_price` (price_monitor.py lines 74-143).  `searchPrices`
is the price list of the gateway response for the item's product name;
`userActive` is `item.user and item.user.is_active`.  The dispatcher call
itself is external; `alertInvoked` records whether it is reached. -/
def _check_item_price (item : WishlistItem) (history : List PriceHistoryRow)
    (searchPrices : List Nat) (now : Nat) (userActive : Bool) : CheckResult :=
  match searchPrices with
  | [] => { item := item, history := history, updated := false, alertInvoked := false }
  | current_price :: _ =>
    if current_price != item.current_price then
      let history' := history ++ [{ wishlist_item_id := item.id
                                    price := current_price
                                    recorded_at := now }]
      let lowest_90 := _calculate_lowest_90days history' item.id now current_price
      let item' := { item with current_price := current_price,
                               lowest_price_90days := some lowest_90 }
      let invoked := _should_send_alert item' current_price lowest_90 && userActive
      { item := item', history := history', updated := true, alertInvoked := invoked }
    else
      { item := item, history := history, updated := false, alertInvoked := false }

/-! ## Notification manager (src/app/services/notifications/notification_manager.py) -/

/-- `MIN_NOTIFICATION_INTERVAL = timedelta(hours=24)` in seconds. -/
def MIN_NOTIFICATION_INTERVAL : Nat := 24 * 3600

/-- The notification-relevant `User` columns. -/
structure NotifUser where
  kakao_notification_enabled : Bool
  kakao_access_token : Option String
  email_notification_enabled : Bool
  notification_email : Option String
  email : Option String
  is_active : Bool
deriving DecidableEq, Repr

/-- Outcome of one channel attempt: the coroutine returned a boolean, or
raised (the exception is caught and logged, yielding no success). -/
inductive ChannelOutcome
  | ok (success : Bool)
  | exn
deriving DecidableEq, Repr

/-- The success value observed by the caller (exceptions are caught). -/
def ChannelOutcome.value : ChannelOutcome → Bool
  | .ok b => b
  | .exn => false

/-- `_should_send_notification` (notification_manager.py lines 103-115). -/
def _should_send_notification (item : WishlistItem) (now : Nat) : Bool :=
  if !item.notification_enabled then false
  else
    match item.last_notified_at with
    | some t => !(decide (now - t < MIN_NOTIFICATION_INTERVAL))
    | none => true

/-- Result of `send_price_alert`: the (possibly updated) item, the `sent`
flag, and which channels were actually attempted. -/
structure AlertResult where
  item : WishlistItem
  sent : Bool
  kakaoAttempted : Bool
  emailAttempted : Bool
deriving DecidableEq, Repr

/-- `user.kakao_notification_enabled and user.kakao_access_token`: the
guard of the messenger attempt (line 64). -/
def kakaoEligible (user : NotifUser) : Bool :=
  user.kakao_notification_enabled && optStrTruthy user.kakao_access_token

/-- `user.notification_email or user.email` (line 80). -/
def emailDestination (user : NotifUser) : Option String :=
  if optStrTruthy user.notification_email then user.notification_email else user.email

/-- The guard of the email fallback (lines 79-81): the messenger did not
succeed, email notifications are on, and a destination address exists. -/
def emailEligible (user : NotifUser) (successKakao : Bool) : Bool :=
  !successKakao && user.email_notification_enabled && optStrTruthy (emailDestination user)

/-- The final `success` flag after both channel attempts. -/
def alertSuccess (user : NotifUser) (kakaoResult emailResult : ChannelOutcome) : Bool :=
  let successKakao := kakaoEligible user && kakaoResult.value
  if emailEligible user successKakao then emailResult.value else successKakao

/-- `send_price_alert` (notification_manager.py lines 31-101): pre-flight
dedup check, messenger attempt when enabled with a truthy token, email
fallback to `notification_email or user.email` when the messenger did not
succeed, and `last_notified_at = now` exactly on success. -/
def send_price_alert (user : NotifUser) (item : WishlistItem) (now : Nat)
    (kakaoResult emailResult : ChannelOutcome) : AlertResult :=
  if !(_should_send_notification item now) then
    { item := item, sent := false, kakaoAttempted := false, emailAttempted := false }
  else
    let success := alertSuccess user kakaoResult emailResult
    let item' := if success then { item with last_notified_at := some now } else item
    { item := item', sent := success
      kakaoAttempted := kakaoEligible user
      emailAttempted := emailEligible user (kakaoEligible user && kakaoResult.value) }

/-! ## Product-search gateway failures and retry (src/app/services/naver_shopping.py)

The response body parsing/filtering is orthogonal to the failure
taxonomy; an HTTP response is embedded as its status code plus the list
of already-parsed result prices.  `NaverShoppingError` is a single
exception class distinguished only by its message, and the `tenacity`
decorator `retry(stop=stop_after_attempt(3), wait=wait_exponential(
multiplier=1, min=1, max=10), reraise=True)` retries the whole call on
any exception, re-raising the last one after the third attempt. -/

/-- An HTTP response of the catalog: status code and the payload prices. -/
structure HttpResp where
  status : Nat
  prices : List Nat
deriving DecidableEq, Repr

/-- Error message raised for a status code, `none` for HTTP 200
(naver_shopping.py lines 140-145). -/
def naverStatusError (code : Nat) : Option String :=
  if code == 429 then some "API 호출 한도 초과"
  else if code == 401 then some "API 인증 실패"
  else if code != 200 then some ("API 오류: " ++ toString code)
  else none

/-- One un-retried execution of `search`: raises `NaverShoppingError`
with the status-dependent message, or returns the payload. -/
def search_attempt (resp : HttpResp) : Except String (List Nat) :=
  match naverStatusError resp.status with
  | some msg => .error msg
  | none => .ok resp.prices

/-- `stop_after_attempt(3)` of the `tenacity` decorator. -/
def RETRY_MAX_ATTEMPTS : Nat := 3

/-- `wait_exponential(multiplier=1, min=1, max=10)`: the wait before retry
number `n` (n ≥ 1), in seconds. -/
def retry_wait (n : Nat) : Nat :=
  max 1 (min 10 (1 * 2 ^ (n - 1)))

/-- The retried `search`: `responses k` is the HTTP response the `k`-th
attempt (0-based) would observe.  Any raised `NaverShoppingError` is
retried until three attempts have run; `reraise=True` surfaces the last
error. -/
def search_with_retry (responses : Nat → HttpResp) : Except String (List Nat) :=
  match search_attempt (responses 0) with
  | .ok r => .ok r
  | .error _ =>
    match search_attempt (responses 1) with
    | .ok r => .ok r
    | .error _ => search_attempt (responses 2)

/-! ## Text parser (src/app/utils/text_parser.py `extract_budget`)

The two regular-expression scans are embedded by their match results: the
optional range match (two amounts with optional units) and the list of
single-amount matches, in text order, plus the flexibility-keyword flag.
Python float arithmetic is modelled as exact rational arithmetic (for the
amounts in question the float computation is exact). -/

/-- The Korean magnitude units of the budget patterns. -/
inductive KUnit
  | cheon
  | man
  | baekman
  | eok
deriving DecidableEq, Repr

/-- The `multipliers` table of `_parse_korean_number`. -/
def unitMultiplier : KUnit → Nat
  | .cheon => 1000
  | .man => 10000
  | .baekman => 1000000
  | .eok => 100000000

/-- `_parse_korean_number` (text_parser.py lines 72-95).  The numeral is
already a number (the `float(num_str)` `ValueError` branch is unreachable
for regex-matched digit strings).  Without a unit: amounts above 10000
pass through, amounts in (0, 1000] are assumed to be 만원 (x10000), and
the rest pass through. -/
def _parse_korean_number (num : ℚ) (unit : Option KUnit) : ℚ :=
  match unit with
  | some u => num * (unitMultiplier u : ℚ)
  | none =>
    if num > 10000 then num
    else if 0 < num ∧ num ≤ 1000 then num * 10000
    else num

/-- Python `int()` on the non-negative floats of `extract_budget`:
truncation, i.e. the floor. -/
def pyInt (q : ℚ) : Nat := q.floor.toNat

/-- A match of the range pattern
`(\d+)(천|만|백만)? [~\-에서부터] (\d+)(천|만|백만)? 원?`. -/
structure RangeMatch where
  v1 : ℚ
  u1 : Option KUnit
  v2 : ℚ
  u2 : Option KUnit

/-- `extract_budget` (text_parser.py lines 11-69) on the match results of
its two regex scans: the range pattern wins when both endpoints are
truthy; otherwise the largest truthy single amount sets
`total = N`, `min = int(0.8*N)`, `max = int(1.2*N)`. -/
def extract_budget (rangeMatch : Option RangeMatch)
    (singleMatches : List (ℚ × Option KUnit)) (is_flexible : Bool) : Option BudgetRange :=
  let fromRange :=
    match rangeMatch with
    | none => none
    | some rm =>
      let min_val := _parse_korean_number rm.v1 rm.u1
      let max_val := _parse_korean_number rm.v2 rm.u2
      if min_val ≠ 0 ∧ max_val ≠ 0 then
        some ({ min_price := some (pyInt min_val)
                max_price := some (pyInt max_val)
                total_budget := none
                is_flexible := is_flexible } : BudgetRange)
      else none
  match fromRange with
  | some b => some b
  | none =>
    let amounts := (singleMatches.map
      (fun (m : ℚ × Option KUnit) => _parse_korean_number m.1 m.2)).filter (fun a => a ≠ 0)
    match amounts with
    | [] => none
    | a :: rest =>
      let base_amount := rest.foldl max a
      some { min_price := some (pyInt (base_amount * (8 / 10 : ℚ)))
             max_price := some (pyInt (base_amount * (12 / 10 : ℚ)))
             total_budget := some (pyInt base_amount)
             is_flexible := is_flexible }

/-! ## Wishlist creation (src/app/api/wishlist.py `add_to_wishlist`) -/

/-- The request body `WishlistItemCreate` (the verified columns). -/
structure WishlistItemCreate where
  product_id : String
  product_name : String
  current_price : Nat
  target_price : Option Nat
deriving DecidableEq, Repr

/-- The two wishlist tables. -/
structure WishlistDB where
  wishlist : List WishlistItem
  history : List PriceHistoryRow
deriving DecidableEq, Repr

/-- Rows of a given user. -/
def userRows (db : WishlistDB) (userId : Nat) : List WishlistItem :=
  db.wishlist.filter (fun w => w.user_id == userId)

/-- The value of `item.id` that wishlist.py line 144 reads when building
the seeding `PriceHistory` row: `default=uuid.uuid4` is a flush-time
column default on a plain `DeclarativeBase` model and the session runs
with `autoflush=False`, so no flush has happened since
`WishlistItem(...)` was constructed and the attribute is still `None`. -/
def itemIdBeforeFlush : Option Nat := none

/-- `add_to_wishlist` (wishlist.py lines 96-166): duplicate
`(user_id, product_id)` check, per-user 20-row limit (both raise
`HTTPException` before anything is added, leaving the tables untouched),
then construction of the item and of its seeding `PriceHistory` row.
The history row's `wishlist_item_id` is taken from `item.id` before any
flush (`itemIdBeforeFlush`); since `price_history.wishlist_item_id` is
declared `nullable=False`, a `None` value there makes `db.commit()`
raise `IntegrityError` and roll the whole transaction back, inserting
nothing (the error string here summarizes the driver's not-null
violation).  `newId` stands for the UUID the flush would assign to the
item, `now` for the row timestamps. -/
def add_to_wishlist (db : WishlistDB) (userId : Nat) (req : WishlistItemCreate)
    (newId now : Nat) : WishlistDB × Option String :=
  if !(db.wishlist.filter
        (fun w => w.user_id == userId && w.product_id == req.product_id)).isEmpty then
    (db, some "이미 등록된 관심상품입니다")
  else if (userRows db userId).length ≥ 20 then
    (db, some "관심상품은 최대 20개까지 등록할 수 있습니다")
  else
    match itemIdBeforeFlush with
    | some fk =>
      ({ wishlist := db.wishlist ++
          [{ id := newId, user_id := userId, product_id := req.product_id,
             product_name := req.product_name, current_price := req.current_price,
             target_price := req.target_price, lowest_price_90days := none,
             notification_enabled := true, last_notified_at := none }],
         history := db.history ++
          [{ wishlist_item_id := fk, price := req.current_price, recorded_at := now }] },
       none)
    | none => (db, some "IntegrityError: null wishlist_item_id in price_history")

/-- The wishlist invariants of the data model: `(user_id, product_id)`
unique and at most 20 rows per user. -/
def wishlistInvariant (db : WishlistDB) : Prop :=
  db.wishlist.Pairwise
    (fun a b => ¬(a.user_id = b.user_id ∧ a.product_id = b.product_id)) ∧
  ∀ u : Nat, (userRows db u).length ≤ 20

/-! ## TTL cache (src/app/services/cache.py) -/

/-- `CacheEntry`: value with creation and expiry instants. -/
structure CacheEntry (α : Type) where
  value : α
  created_at : Nat
  expires_at : Nat
deriving Repr

/-- `CacheEntry.__init__(value, ttl_seconds)`. -/
def CacheEntry.make (value : α) (now ttl_seconds : Nat) : CacheEntry α :=
  { value := value, created_at := now, expires_at := now + ttl_seconds }

/-- `CacheEntry.is_expired`: strictly past the expiry instant. -/
def CacheEntry.is_expired (e : CacheEntry α) (now : Nat) : Bool :=
  decide (now > e.expires_at)

/-- The `_cache` dict, embedded as an association list (Python dicts hold
one entry per key). -/
abbrev CacheMap (α : Type) := List (String × CacheEntry α)

/-- `self._cache.get(key)`. -/
def cacheLookup : CacheMap α → String → Option (CacheEntry α)
  | [], _ => none
  | (k', e) :: rest, k => if k' == k then some e else cacheLookup rest k

/-- `del self._cache[key]`. -/
def cacheDelete : CacheMap α → String → CacheMap α
  | [], _ => []
  | (k', e) :: rest, k =>
    if k' == k then cacheDelete rest k else (k', e) :: cacheDelete rest k

/-- `InMemoryCache.get` (cache.py lines 45-57): miss on absence; an
expired entry is deleted and reported as a miss; otherwise the value is
returned and the map is untouched. -/
def cache_get (c : CacheMap α) (k : String) (now : Nat) : Option α × CacheMap α :=
  match cacheLookup c k with
  | none => (none, c)
  | some e => if e.is_expired now then (none, cacheDelete c k) else (some e.value, c)

/-- The analyzer output of a turn whose LLM reply classified GIFT but
extracted neither recipient nor budget (the E1 scenario
"선물 추천해줘 5만원" with the recipient unknown). -/
def giftClarifyTurn : AnalyzerOutput :=
  analyze_request
    { intent_str := "GIFT"
      confidence := 9 / 10
      budget := none
      items := []
      recipient := none
      search_keywords := [] }

/-!
# Theorems
-/

theorem foldr_min_pull (l : List Nat) (x y : Nat) :
    List.foldr min (min x y) l = min x (List.foldr min y l) := by
  induction l with
  | nil => rfl
  | cons a l ih => simp only [List.foldr, ih, min_left_comm]

theorem foldl_min_eq_foldr (l : List Nat) (c : Nat) :
    List.foldl min c l = List.foldr min c l := by
  induction l generalizing c with
  | nil => rfl
  | cons a l ih =>
    simp only [List.foldl, List.foldr]
    rw [ih, min_comm c a, foldr_min_pull]

/-- `_calculate_lowest_90days` computes the minimum of `current_price` and
all in-window history prices. -/
theorem calculate_lowest_eq_foldr (history : List PriceHistoryRow) (itemId now cp : Nat) :
    _calculate_lowest_90days history itemId now cp =
      List.foldr min cp (pricesWithin90 history itemId now) := by
  unfold _calculate_lowest_90days
  cases h : pricesWithin90 history itemId now with
  | nil => rfl
  | cons p ps =>
    simp only [List.foldr]
    rw [foldl_min_eq_foldr, min_comm (List.foldr min p ps) cp, ← foldr_min_pull,
      min_comm cp p, foldr_min_pull]

/-- C1: the claim says a clarification turn transitions `clarify_count`
from 0 to 1 and that the count is carried across the session's turns with
a third clarification rerouted.  Evaluating the code at a clarification
turn: the clarification is requested, yet the returned `clarify_count` is
0 (not 1), and in fact every analyzer output carries `clarify_count = 0`,
so the `clarify_count < 2` guard of the clarification decision never
fires and a third clarification is not rerouted. -/
theorem C1_clarify_count_never_incremented :
    giftClarifyTurn.clarification_needed = true ∧
    giftClarifyTurn.requirements.clarify_count = 0 ∧
    (giftClarifyTurn.requirements.clarify_count == 1) = false ∧
    giftClarifyTurn.clarification_field = some "recipient" ∧
    ∀ a : LLMAnalysis, (analyze_request a).requirements.clarify_count = 0 :=
  ⟨rfl, rfl, rfl, rfl, fun _ => rfl⟩

/-- C2 counterexample: the compiled orchestrator graph's entry point is
`classify_intent`, and no node named `analyze_request` exists in the
graph at all, refuting "the node that runs first on every invocation is
analyze_request". -/
theorem C2_entry_counterexample :
    build_orchestrator.entry = some "classify_intent" ∧
    ("classify_intent" == "analyze_request") = false ∧
    build_orchestrator.nodes.contains "analyze_request" = false := by
  refine ⟨rfl, by decide, by decide⟩

/-- C2 (amended): the entry node is `classify_intent`, followed
unconditionally by `extract_requirements`; the conditional edge on
`clarification_needed` branches from `extract_requirements` to the
terminal `clarify` node or to `route_by_intent`, which selects one of the
five mode agents by intent, defaulting to VALUE. -/
theorem C2_graph_structure :
    build_orchestrator.entry = some "classify_intent" ∧
    ("classify_intent", "extract_requirements") ∈ build_orchestrator.edges ∧
    ("extract_requirements",
      [("clarify", "clarify"), ("route_to_agent", "route_by_intent")]) ∈
        build_orchestrator.branches ∧
    should_clarify (some true) = "clarify" ∧
    should_clarify (some false) = "route_to_agent" ∧
    should_clarify none = "route_to_agent" ∧
    ("clarify", GRAPH_END) ∈ build_orchestrator.edges ∧
    ("route_by_intent",
      [("gift_agent", "gift_agent"), ("value_agent", "value_agent"),
       ("bundle_agent", "bundle_agent"), ("review_agent", "review_agent"),
       ("trend_agent", "trend_agent")]) ∈ build_orchestrator.branches ∧
    route_by_intent (some .GIFT) = "gift_agent" ∧
    route_by_intent (some .VALUE) = "value_agent" ∧
    route_by_intent (some .BUNDLE) = "bundle_agent" ∧
    route_by_intent (some .REVIEW) = "review_agent" ∧
    route_by_intent (some .TREND) = "trend_agent" ∧
    route_by_intent none = "value_agent" ∧
    ("gift_agent", GRAPH_END) ∈ build_orchestrator.edges ∧
    ("value_agent", GRAPH_END) ∈ build_orchestrator.edges ∧
    ("bundle_agent", GRAPH_END) ∈ build_orchestrator.edges ∧
    ("review_agent", GRAPH_END) ∈ build_orchestrator.edges ∧
    ("trend_agent", GRAPH_END) ∈ build_orchestrator.edges := by
  decide

/-- C6 counterexample: a BUNDLE `Requirements` with two items and a
budget carrying only `max_price` is still missing `budget` - the code
requires `total_budget` and does not accept `max_price` in its stead,
refuting "budget missing when neither budget.total_budget nor max_price
is present". -/
theorem C6_bundle_max_price_counterexample :
    (_get_missing_fields
      { budget := some { min_price := none, max_price := some 1000000,
                         total_budget := none, is_flexible := true }
        items := ["노트북", "마우스"]
        recipient := none
        constraints := defaultConstraints
        missing_fields := []
        clarify_count := 0 } "BUNDLE") = ["budget"] := by
  decide

/-- C6 (amended): the missing-field rules of `_get_missing_fields` -
GIFT requires a truthy `recipient.relation` and a budget (items
optional); VALUE and REVIEW require a non-empty items list; BUNDLE
requires at least 2 items and a truthy `budget.total_budget` (a bare
`max_price` does not count); TREND requires nothing. -/
theorem C6_missing_field_rules (r : Requirements) :
    (("recipient" ∈ _get_missing_fields r "GIFT") ↔
      (r.recipient = none ∨
        ∃ ri, r.recipient = some ri ∧ (ri.relation = none ∨ ri.relation = some ""))) ∧
    (("budget" ∈ _get_missing_fields r "GIFT") ↔ r.budget = none) ∧
    ("items" ∉ _get_missing_fields r "GIFT") ∧
    (_get_missing_fields r "VALUE" = if r.items = [] then ["items"] else []) ∧
    (_get_missing_fields r "REVIEW" = if r.items = [] then ["items"] else []) ∧
    (("items" ∈ _get_missing_fields r "BUNDLE") ↔ r.items.length < 2) ∧
    (("budget" ∈ _get_missing_fields r "BUNDLE") ↔
      (r.budget = none ∨
        ∃ b, r.budget = some b ∧ (b.total_budget = none ∨ b.total_budget = some 0))) ∧
    (_get_missing_fields r "TREND" = []) := by
  obtain ⟨budget, items, recipient, constraints, missing, cc⟩ := r
  refine ⟨?_, ?_, ?_, ?_, ?_, ?_, ?_, rfl⟩
  · cases recipient with
    | none => simp [_get_missing_fields, giftRecipientMissing]
    | some ri =>
      cases hrel : ri.relation with
      | none =>
        simp [_get_missing_fields, giftRecipientMissing, optStrTruthy, hrel]
      | some s =>
        by_cases hs : s = ""
        · subst hs
          simp [_get_missing_fields, giftRecipientMissing, optStrTruthy, hrel]
        · simp [_get_missing_fields, giftRecipientMissing, optStrTruthy, hrel, hs]
  · cases budget <;>
      cases hrm : giftRecipientMissing recipient <;>
        simp [_get_missing_fields, hrm]
  · cases budget <;>
      cases hrm : giftRecipientMissing recipient <;>
        simp [_get_missing_fields, hrm]
  · cases items <;> simp [_get_missing_fields]
  · cases items <;> simp [_get_missing_fields]
  · cases hbm : bundleBudgetMissing budget <;>
      cases items with
      | nil => simp [_get_missing_fields, hbm]
      | cons a l =>
        cases l <;> simp [_get_missing_fields, hbm, Nat.lt_irrefl]
  · cases budget with
    | none =>
      simp [_get_missing_fields, bundleBudgetMissing]
    | some b =>
      cases htb : b.total_budget with
      | none =>
        simp [_get_missing_fields, bundleBudgetMissing, optNatTruthy, htb]
      | some n =>
        by_cases hn : n = 0
        · subst hn
          simp [_get_missing_fields, bundleBudgetMissing, optNatTruthy, htb]
        · simp [_get_missing_fields, bundleBudgetMissing, optNatTruthy, htb, hn]

/-- C6 witness: a VALUE requirement with an empty items list misses
exactly `items`. -/
theorem C6_missing_field_rules_witness :
    _get_missing_fields
      { budget := none, items := [], recipient := none,
        constraints := defaultConstraints, missing_fields := [], clarify_count := 0 }
      "VALUE" = ["items"] := by
  have h := (C6_missing_field_rules
    { budget := none, items := [], recipient := none,
      constraints := defaultConstraints, missing_fields := [], clarify_count := 0 }).2.2.2.1
  simpa using h

/-- Deleting a key removes it: a subsequent lookup misses. -/
theorem cacheLookup_cacheDelete {α : Type} (c : CacheMap α) (k : String) :
    cacheLookup (cacheDelete c k) k = none := by
  induction c with
  | nil => rfl
  | cons kv rest ih =>
    obtain ⟨k', e'⟩ := kv
    by_cases hk : (k' == k) = true
    · simpa [cacheDelete, hk] using ih
    · simp [cacheDelete, cacheLookup, hk, ih]

/-- C9: the TTL cache never returns an expired entry - `get` on an entry
with `now > expires_at` is a miss and removes the entry; `get` on an
unexpired entry returns its value and leaves the map unchanged. -/
theorem C9_cache_never_returns_expired (α : Type) (c : CacheMap α) (k : String) (now : Nat)
    (e : CacheEntry α) (hlook : cacheLookup c k = some e) :
    (now > e.expires_at →
      cache_get c k now = (none, cacheDelete c k) ∧
      cacheLookup (cacheDelete c k) k = none) ∧
    (now ≤ e.expires_at → cache_get c k now = (some e.value, c)) := by
  constructor
  · intro hexp
    refine ⟨?_, ?_⟩
    · simp [cache_get, hlook, CacheEntry.is_expired, hexp]
    · exact cacheLookup_cacheDelete c k
  · intro hfresh
    have : ¬ (now > e.expires_at) := by omega
    simp [cache_get, hlook, CacheEntry.is_expired, this]

/-- C9 witness: a concrete expired entry (expiry 5, read at 9) is evicted
and missed. -/
theorem C9_cache_witness :
    cacheLookup [("k", (⟨7, 0, 5⟩ : CacheEntry Nat))] "k" = some ⟨7, 0, 5⟩ ∧
    (9 > 5) ∧
    cache_get [("k", (⟨7, 0, 5⟩ : CacheEntry Nat))] "k" 9 = (none, []) :=
  ⟨rfl, by decide,
    ((C9_cache_never_returns_expired Nat [("k", ⟨7, 0, 5⟩)] "k" 9 ⟨7, 0, 5⟩ rfl).1
      (by decide)).1⟩

/-- C10: when the first fetched price equals the stored current price,
`_check_item_price` is a no-op - item, history, update flag and alert
dispatch are all unchanged/false, regardless of `target_price` or the
90-day low. -/
theorem C10_equal_price_frame (item : WishlistItem) (history : List PriceHistoryRow)
    (p : Nat) (rest : List Nat) (now : Nat) (userActive : Bool)
    (h : p = item.current_price) :
    _check_item_price item history (p :: rest) now userActive =
      { item := item, history := history, updated := false, alertInvoked := false } := by
  subst h
  simp [_check_item_price]

/-- C10 witness: a stored price already at the target price and at the
90-day low; the equal fetched price still changes nothing and sends no
alert. -/
theorem C10_equal_price_witness :
    (50000 = (({ id := 1, user_id := 7, product_id := "p1", product_name := "상품",
                 current_price := 50000, target_price := some 60000,
                 lowest_price_90days := some 50000, notification_enabled := true,
                 last_notified_at := none } : WishlistItem)).current_price) ∧
    _check_item_price
      { id := 1, user_id := 7, product_id := "p1", product_name := "상품",
        current_price := 50000, target_price := some 60000,
        lowest_price_90days := some 50000, notification_enabled := true,
        last_notified_at := none }
      [{ wishlist_item_id := 1, price := 52000, recorded_at := 10 }]
      [50000, 49000] 100 true =
      { item := { id := 1, user_id := 7, product_id := "p1", product_name := "상품",
                  current_price := 50000, target_price := some 60000,
                  lowest_price_90days := some 50000, notification_enabled := true,
                  last_notified_at := none }
        history := [{ wishlist_item_id := 1, price := 52000, recorded_at := 10 }]
        updated := false
        alertInvoked := false } :=
  ⟨rfl, C10_equal_price_frame _ _ 50000 [49000] 100 true rfl⟩

/-- C3: a successful price update (fetched reference price differs from
the stored one) appends exactly one new `PriceHistory` row at the fetched
price, sets `current_price` to it, and recomputes
`lowest_price_90days` as the minimum of the new current price and all of
the item's history prices recorded within the last 90 days; and for any
gateway response, `_check_item_price` only ever appends to the history
(rows are never modified or removed). -/
theorem C3_price_update (item : WishlistItem) (history : List PriceHistoryRow)
    (ref : Nat) (rest : List Nat) (now : Nat) (userActive : Bool)
    (h : ref ≠ item.current_price) :
    (_check_item_price item history (ref :: rest) now userActive).history =
      history ++ [{ wishlist_item_id := item.id, price := ref, recorded_at := now }] ∧
    (_check_item_price item history (ref :: rest) now userActive).history.length =
      history.length + 1 ∧
    (_check_item_price item history (ref :: rest) now userActive).item.current_price = ref ∧
    (_check_item_price item history (ref :: rest) now userActive).updated = true ∧
    (_check_item_price item history (ref :: rest) now userActive).item.lowest_price_90days =
      some (List.foldr min ref
        (pricesWithin90 (_check_item_price item history (ref :: rest) now userActive).history
          item.id now)) ∧
    (∀ prices : List Nat, ∃ tail,
      (_check_item_price item history prices now userActive).history = history ++ tail) := by
  have hne : (ref != item.current_price) = true := bne_iff_ne.mpr h
  refine ⟨?_, ?_, ?_, ?_, ?_, ?_⟩
  · simp [_check_item_price, hne]
  · simp [_check_item_price, hne]
  · simp [_check_item_price, hne]
  · simp [_check_item_price, hne]
  · simp only [_check_item_price, hne, if_true]
    rw [calculate_lowest_eq_foldr]
  · intro prices
    match prices with
    | [] => exact ⟨[], by simp [_check_item_price]⟩
    | p :: ps =>
      by_cases hp : (p != item.current_price) = true
      · exact ⟨[{ wishlist_item_id := item.id, price := p, recorded_at := now }],
          by simp [_check_item_price, hp]⟩
      · exact ⟨[], by simp [_check_item_price, hp]⟩

/-- C3 witness: a 45000 quote against a stored 50000 appends the one
history row, updates the price, and records the new 90-day low. -/
theorem C3_price_update_witness :
    (45000 ≠ 50000) ∧
    (_check_item_price ⟨1, 7, "p1", "상품", 50000, none, some 50000, true, none⟩ []
        [45000] 100 true).history =
      [] ++ [{ wishlist_item_id := 1, price := 45000, recorded_at := 100 }] ∧
    (_check_item_price ⟨1, 7, "p1", "상품", 50000, none, some 50000, true, none⟩ []
        [45000] 100 true).item.current_price = 45000 ∧
    (_check_item_price ⟨1, 7, "p1", "상품", 50000, none, some 50000, true, none⟩ []
        [45000] 100 true).item.lowest_price_90days = some 45000 := by
  have h := C3_price_update ⟨1, 7, "p1", "상품", 50000, none, some 50000, true, none⟩ []
    45000 [] 100 true (by decide)
  refine ⟨by decide, h.1, h.2.2.1, ?_⟩
  rw [h.2.2.2.2.1, h.1]
  decide

/-- The messenger/email success flag is exactly "some attempted channel
reported success". -/
theorem alertSuccess_eq (user : NotifUser) (kr er : ChannelOutcome) :
    alertSuccess user kr er =
      (kakaoEligible user && kr.value ||
        emailEligible user (kakaoEligible user && kr.value) && er.value) := by
  unfold alertSuccess
  cases hk : (kakaoEligible user && kr.value) with
  | true => simp [emailEligible, hk]
  | false =>
    simp only [Bool.false_or]
    cases he : emailEligible user false <;> simp [he]

/-- After a successful alert stamped `last_notified_at = now`, any call
within the 24-hour window fails the pre-flight check. -/
theorem should_send_after_update (item : WishlistItem) (now now2 : Nat)
    (h : now2 - now < MIN_NOTIFICATION_INTERVAL) :
    _should_send_notification { item with last_notified_at := some now } now2 = false := by
  unfold _should_send_notification
  cases item.notification_enabled <;> simp [h]

/-- C4: `send_price_alert` skips (no channel attempted, `sent = false`)
exactly when notifications are disabled or the last alert is less than
24 hours old; `sent` is true iff an attempted channel reported success;
`last_notified_at` is stamped with `now` iff `sent`; and after a
successful alert, any further alert for the item within 24 hours is
skipped unchanged - the item is never notified twice within 24 hours. -/
theorem C4_notification_dedup (user : NotifUser) (item : WishlistItem) (now : Nat)
    (kr er : ChannelOutcome) :
    (_should_send_notification item now = false ↔
      (item.notification_enabled = false ∨
        ∃ t, item.last_notified_at = some t ∧ now - t < MIN_NOTIFICATION_INTERVAL)) ∧
    (_should_send_notification item now = false →
      send_price_alert user item now kr er =
        { item := item, sent := false, kakaoAttempted := false, emailAttempted := false }) ∧
    ((send_price_alert user item now kr er).sent =
      ((send_price_alert user item now kr er).kakaoAttempted && kr.value ||
        (send_price_alert user item now kr er).emailAttempted && er.value)) ∧
    ((send_price_alert user item now kr er).item =
      (if (send_price_alert user item now kr er).sent then
        { item with last_notified_at := some now } else item)) ∧
    ((send_price_alert user item now kr er).sent = true →
      ∀ (user2 : NotifUser) (now2 : Nat) (kr2 er2 : ChannelOutcome),
        now2 - now < MIN_NOTIFICATION_INTERVAL →
        send_price_alert user2 (send_price_alert user item now kr er).item now2 kr2 er2 =
          { item := (send_price_alert user item now kr er).item, sent := false,
            kakaoAttempted := false, emailAttempted := false }) := by
  refine ⟨?_, ?_, ?_, ?_, ?_⟩
  · unfold _should_send_notification
    cases hen : item.notification_enabled with
    | false => simp [hen]
    | true =>
      cases hl : item.last_notified_at with
      | none => simp
      | some t =>
        by_cases ht : now - t < MIN_NOTIFICATION_INTERVAL <;> simp [ht]
  · intro hpre
    simp [send_price_alert, hpre]
  · by_cases hpre : _should_send_notification item now = true
    · simp only [send_price_alert, hpre, Bool.not_true, Bool.false_eq_true, if_false]
      exact alertSuccess_eq user kr er
    · have hpre' : _should_send_notification item now = false := by
        revert hpre
        cases _should_send_notification item now <;> simp
      simp [send_price_alert, hpre']
  · by_cases hpre : _should_send_notification item now = true
    · simp only [send_price_alert, hpre, Bool.not_true, Bool.false_eq_true, if_false]
    · have hpre' : _should_send_notification item now = false := by
        revert hpre
        cases _should_send_notification item now <;> simp
      simp [send_price_alert, hpre']
  · intro hsent user2 now2 kr2 er2 h2
    have hpre : _should_send_notification item now = true := by
      by_contra hc
      have hpre' : _should_send_notification item now = false := by
        revert hc
        cases _should_send_notification item now <;> simp
      simp [send_price_alert, hpre'] at hsent
    have hsucc : alertSuccess user kr er = true := by
      simpa [send_price_alert, hpre] using hsent
    have hitem : (send_price_alert user item now kr er).item =
        { item with last_notified_at := some now } := by
      simp [send_price_alert, hpre, hsucc]
    rw [hitem]
    simp [send_price_alert, should_send_after_update item now now2 h2]

/-- C4 witness: messenger succeeds at time 1000, so the item is stamped;
a second alert at time 2000 (within 24 h) is skipped with
`sent = false`. -/
theorem C4_notification_dedup_witness :
    ((send_price_alert ⟨true, some "tok", true, none, some "user@example.com", true⟩
        ⟨1, 7, "p1", "상품", 45000, none, some 45000, true, none⟩ 1000
        (.ok true) .exn).sent = true) ∧
    (2000 - 1000 < MIN_NOTIFICATION_INTERVAL) ∧
    (send_price_alert ⟨false, none, true, none, some "other@example.com", true⟩
        (send_price_alert ⟨true, some "tok", true, none, some "user@example.com", true⟩
          ⟨1, 7, "p1", "상품", 45000, none, some 45000, true, none⟩ 1000
          (.ok true) .exn).item 2000 (.ok true) (.ok true) =
      { item := (send_price_alert ⟨true, some "tok", true, none, some "user@example.com", true⟩
          ⟨1, 7, "p1", "상품", 45000, none, some 45000, true, none⟩ 1000
          (.ok true) .exn).item
        sent := false, kakaoAttempted := false, emailAttempted := false }) :=
  ⟨by decide, by decide,
    (C4_notification_dedup ⟨true, some "tok", true, none, some "user@example.com", true⟩
        ⟨1, 7, "p1", "상품", 45000, none, some 45000, true, none⟩ 1000
        (.ok true) .exn).2.2.2.2 (by decide)
      ⟨false, none, true, none, some "other@example.com", true⟩ 2000 (.ok true) (.ok true)
      (by decide)⟩

/-- The generic upstream-error message differs from the rate-limit and
auth messages whatever the status-code rendering: they disagree at the
fifth character. -/
theorem upstreamMsg_ne (s : String) :
    ("API 오류: " ++ s ≠ "API 호출 한도 초과") ∧ ("API 오류: " ++ s ≠ "API 인증 실패") := by
  constructor <;>
    · intro h
      have hd := congrArg String.data h
      rw [String.data_append] at hd
      have h4 := congrArg (fun l => l.get? 4) hd
      simp only [show "API 오류: ".data = ['A', 'P', 'I', ' ', '오', '류', ':', ' '] from rfl,
        List.cons_append, List.get?] at h4
      exact absurd h4 (by decide)

/-- C5 counterexample: the claim says an HTTP 401 is fatal and surfaced
immediately without retry; in the code a 401 raises the same
`NaverShoppingError` that the `tenacity` decorator retries, so a call
whose first attempt sees 401 and whose second sees 200 succeeds instead
of surfacing an auth failure. -/
theorem C5_auth_retried_counterexample :
    search_attempt ⟨401, []⟩ = .error "API 인증 실패" ∧
    search_with_retry (fun k => if k = 0 then ⟨401, []⟩ else ⟨200, [12000]⟩) = .ok [12000] :=
  ⟨rfl, rfl⟩

/-- C5 (amended): 429, 401 and other non-200 statuses raise the single
`NaverShoppingError` type with three mutually distinct messages (rate
limit, auth failure, generic upstream error), and the retry policy is
kind-blind: any raised error - auth failures included - is retried, up to
3 attempts in total (`wait_exponential(multiplier=1, min=1, max=10)`),
with the last error re-raised. -/
theorem C5_failure_taxonomy (code : Nat) (prices : List Nat) (responses : Nat → HttpResp) :
    (naverStatusError 429 = some "API 호출 한도 초과") ∧
    (naverStatusError 401 = some "API 인증 실패") ∧
    (code ≠ 429 → code ≠ 401 → code ≠ 200 →
      naverStatusError code = some ("API 오류: " ++ toString code) ∧
      naverStatusError code ≠ naverStatusError 429 ∧
      naverStatusError code ≠ naverStatusError 401) ∧
    ("API 호출 한도 초과" ≠ "API 인증 실패") ∧
    (search_attempt ⟨200, prices⟩ = .ok prices) ∧
    (∀ msg, search_attempt (responses 0) = .error msg →
      search_with_retry responses =
        (match search_attempt (responses 1) with
          | .ok r => .ok r
          | .error _ => search_attempt (responses 2))) ∧
    (search_attempt (responses 0) = .ok prices → search_with_retry responses = .ok prices) ∧
    RETRY_MAX_ATTEMPTS = 3 ∧ retry_wait 1 = 1 ∧ retry_wait 2 = 2 ∧ retry_wait 5 = 10 := by
  refine ⟨rfl, rfl, ?_, by decide, rfl, ?_, ?_, rfl, by decide, by decide, by decide⟩
  · intro h429 h401 h200
    have e429 : (code == 429) = false := beq_eq_false_iff_ne.mpr h429
    have e401 : (code == 401) = false := beq_eq_false_iff_ne.mpr h401
    have e200 : (code != 200) = true := bne_iff_ne.mpr h200
    refine ⟨?_, ?_, ?_⟩
    · simp [naverStatusError, e429, e401, e200]
    · simp only [naverStatusError, e429, e401, e200, Bool.false_eq_true, if_false, if_true,
        beq_self_eq_true]
      exact fun hc => (upstreamMsg_ne (toString code)).1 (Option.some.inj hc)
    · simp only [naverStatusError, e429, e401, e200, Bool.false_eq_true, if_false, if_true,
        beq_self_eq_true]
      exact fun hc => (upstreamMsg_ne (toString code)).2 (Option.some.inj hc)
  · intro msg h
    simp [search_with_retry, h]
  · intro h
    simp [search_with_retry, h]

/-- C5 witness: a 500 status yields the generic message; an all-200
response stream succeeds on the first attempt. -/
theorem C5_failure_taxonomy_witness :
    (500 ≠ 429) ∧ (500 ≠ 401) ∧ (500 ≠ 200) ∧
    naverStatusError 500 = some ("API 오류: " ++ toString 500) ∧
    search_with_retry (fun _ => ⟨200, [9900]⟩) = .ok [9900] :=
  ⟨by decide, by decide, by decide,
    ((C5_failure_taxonomy 500 [9900] (fun _ => ⟨200, [9900]⟩)).2.2.1 (by decide) (by decide)
      (by decide)).1,
    (C5_failure_taxonomy 500 [9900] (fun _ => ⟨200, [9900]⟩)).2.2.2.2.2.2.1 rfl⟩

theorem rat_floor_eq_intFloor (q : ℚ) : q.floor = ⌊q⌋ := by
  rw [Rat.floor_def', Rat.floor_def]

theorem pyInt_natCast (n : ℕ) : pyInt (n : ℚ) = n := by
  unfold pyInt
  rw [rat_floor_eq_intFloor, Int.floor_natCast]
  omega

/-- A lone truthy single match makes `extract_budget` return the
±20% band around it. -/
theorem extract_budget_single (x : ℚ) (u : Option KUnit) (flex : Bool)
    (hx : _parse_korean_number x u ≠ 0) :
    extract_budget none [(x, u)] flex =
      some { min_price := some (pyInt (_parse_korean_number x u * (8 / 10)))
             max_price := some (pyInt (_parse_korean_number x u * (12 / 10)))
             total_budget := some (pyInt (_parse_korean_number x u))
             is_flexible := flex } := by
  simp [extract_budget, hx]

/-- C7: a single amount `N` with unit 만 or 천 (and no range match)
parses to `total_budget = N * multiplier`, `min_price = int(0.8*total)`
and `max_price = int(1.2*total)`; both bounds are exact (no rounding
loss), as the cast equalities state. -/
theorem C7_budget_round_trip (N : ℕ) (hN : 0 < N) (u : KUnit)
    (hu : u = KUnit.man ∨ u = KUnit.cheon) (flex : Bool) :
    extract_budget none [((N : ℚ), some u)] flex =
      some { min_price := some (8 * (N * unitMultiplier u) / 10)
             max_price := some (12 * (N * unitMultiplier u) / 10)
             total_budget := some (N * unitMultiplier u)
             is_flexible := flex } ∧
    ((8 * (N * unitMultiplier u) / 10 : ℕ) : ℚ) =
      (8 / 10 : ℚ) * ((N * unitMultiplier u : ℕ) : ℚ) ∧
    ((12 * (N * unitMultiplier u) / 10 : ℕ) : ℚ) =
      (12 / 10 : ℚ) * ((N * unitMultiplier u : ℕ) : ℚ) := by
  obtain ⟨m, hm⟩ : ∃ m, N * unitMultiplier u = 10 * m := by
    rcases hu with hu | hu <;> subst hu
    · exact ⟨N * 1000, by simp only [unitMultiplier]; ring⟩
    · exact ⟨N * 100, by simp only [unitMultiplier]; ring⟩
  have hparse : _parse_korean_number (N : ℚ) (some u) = ((N * unitMultiplier u : ℕ) : ℚ) := by
    simp only [_parse_korean_number]
    push_cast
    ring
  have hpos : 0 < N * unitMultiplier u := by
    rcases hu with hu | hu <;> subst hu <;> exact Nat.mul_pos hN (by decide)
  have hx : _parse_korean_number (N : ℚ) (some u) ≠ 0 := by
    rw [hparse]
    exact_mod_cast Nat.pos_iff_ne_zero.mp hpos
  have hcast8 : ((N * unitMultiplier u : ℕ) : ℚ) * (8 / 10) =
      ((8 * (N * unitMultiplier u) / 10 : ℕ) : ℚ) := by
    rw [hm, show (8 * (10 * m) / 10 : ℕ) = 8 * m by omega]
    push_cast
    ring
  have hcast12 : ((N * unitMultiplier u : ℕ) : ℚ) * (12 / 10) =
      ((12 * (N * unitMultiplier u) / 10 : ℕ) : ℚ) := by
    rw [hm, show (12 * (10 * m) / 10 : ℕ) = 12 * m by omega]
    push_cast
    ring
  refine ⟨?_, ?_, ?_⟩
  · rw [extract_budget_single _ _ _ hx, hparse, hcast8, hcast12, pyInt_natCast,
      pyInt_natCast, pyInt_natCast]
  · rw [← hcast8]
    ring
  · rw [← hcast12]
    ring

/-- C7 witness: "5만원" - the single amount 5 with unit 만 yields
total 50000, min 40000, max 60000. -/
theorem C7_budget_round_trip_witness :
    (0 < 5) ∧
    extract_budget none [((5 : ℚ), some KUnit.man)] false =
      some { min_price := some 40000, max_price := some 60000,
             total_budget := some 50000, is_flexible := false } := by
  refine ⟨by decide, ?_⟩
  have h := (C7_budget_round_trip 5 (by decide) KUnit.man (Or.inl rfl) false).1
  simpa [unitMultiplier] using h

/-- C8: the claim's successful-creation path does not exist in the code.
The seeding `PriceHistory` row is built from `item.id` before any flush;
that attribute is still `None` (flush-time uuid default on a plain
`DeclarativeBase` model, `autoflush=False`) and the column is NOT NULL,
so the commit of a perfectly valid creation request (no duplicate, fewer
than 20 rows) raises `IntegrityError` and the transaction rolls back
with nothing inserted into either table; in fact no call to
`add_to_wishlist` ever modifies the database (the duplicate and
20-row-cap rejections also leave it untouched, as the claim states). -/
theorem C8_creation_fails_at_commit :
    itemIdBeforeFlush = none ∧
    add_to_wishlist ⟨[], []⟩ 7 ⟨"p1", "노트북", 900000, some 850000⟩ 1 50 =
      (⟨[], []⟩, some "IntegrityError: null wishlist_item_id in price_history") ∧
    ∀ (db : WishlistDB) (userId : Nat) (req : WishlistItemCreate) (newId now : Nat),
      (add_to_wishlist db userId req newId now).1 = db := by
  refine ⟨rfl, rfl, ?_⟩
  intro db userId req newId now
  unfold add_to_wishlist
  split
  · rfl
  · split
    · rfl
    · rfl

end CartPilot
